import Mathlib

/-!
Verification of the unprocessed-payments export pipeline (src/main.py).

The embedding translates the pure core of `get_qbo_credits` and the
`__main__` tail. Fetched JSON collections are modelled as Lean structures
whose optional keys are `Option` fields; Python dicts used as lookup
indices are association lists where a later insertion is consed in front,
so lookup finds the most recent write, exactly as a Python dict does.
Calendar dates are mapped to their rata-die day number (the order
isomorphism Python's `datetime.date` comparison factors through), and
"now" enters as the rata-die number of `datetime.now().date()`.
-/

namespace UP

/-- A JSON scalar as Python sees it after `response.json()`: the
`ProcessPayment` key may in principle hold any JSON value, so the model
keeps booleans, numbers, strings and null. -/
inductive PVal where
  | bool (b : Bool)
  | num (n : Int)
  | str (s : String)
  | null
deriving DecidableEq, Repr

/-- Python's `x != True` at line 269 negates Python equality with `True`,
and Python equality identifies `True` with the number 1 (`1 == True`).
An absent key (`dict.get` returning `None`) is never equal to `True`. -/
def pyEqTrue : Option PVal → Bool
  | some (.bool b) => b
  | some (.num n) => n == 1
  | some (.str _) => false
  | some .null => false
  | none => false

/-- A linked transaction {TxnType, TxnId}; both keys optional in the data. -/
structure LinkedTxn where
  TxnType : Option String
  TxnId : Option String
deriving DecidableEq, Repr

/-- A deposit or payment line; `line.get("LinkedTxn", [])`. -/
structure TxnLine where
  LinkedTxn : List LinkedTxn
deriving DecidableEq, Repr

/-- The CustomerRef sub-object of a payment, with optional value and name. -/
structure CustRef where
  value : Option String
  name : Option String
deriving DecidableEq, Repr

/-- A PaymentMethod entity; the code indexes pm["Id"] and pm["Name"]
directly, so both are required. -/
structure PaymentMethod where
  Id : String
  Name : String
deriving DecidableEq, Repr

/-- An Account entity; Name falls back to FullyQualifiedName, then "". -/
structure Account where
  Id : String
  Name : Option String
  FullyQualifiedName : Option String
deriving DecidableEq, Repr

/-- A Deposit entity; Id and DocNumber are read with `.get(_, "")`. -/
structure Deposit where
  Id : Option String
  DocNumber : Option String
  Line : List TxnLine
deriving DecidableEq, Repr

/-- A Payment entity. `Id` and `TotalAmt` are indexed directly by the code
(`payment["Id"]`, `payment["TotalAmt"]`) so they are required fields; the
reference sub-objects are collapsed to the value the code extracts from
them (`.get("PaymentMethodRef", {}).get("value")` is `none` when either
level is absent). -/
structure Payment where
  Id : String
  TxnDate : Option String
  TotalAmt : Int
  CustomerRef : Option CustRef
  PaymentMethodRef : Option String
  DepositToAccountRef : Option String
  ProcessPayment : Option PVal
  PaymentRefNum : Option String
  PrivateNote : Option String
  Line : List TxnLine
deriving DecidableEq, Repr

/-- The value stored in the payment-to-deposit index. -/
structure DepositInfo where
  Deposit_ID : String
  Deposit_Number : String
deriving DecidableEq, Repr

/-- One row of the export, in the schema of lines 318-334. `Payment_Number`
and `Memo` come from `payment.get(...)` with no default, so an absent key
yields Python `None`, modelled as `none`. -/
structure ExportRecord where
  Payment_ID : String
  Date : String
  Total_Amount : Int
  QBO_Customer_ID : String
  Customer_Name : String
  Invoice_Number : String
  Payment_Method : String
  Payment_Number : Option String
  Memo : Option String
  Deposit_Account_ID : String
  Deposit_Account_Name : String
  Has_Matching_Deposit : Bool
  Deposit_ID : String
  Deposit_Number : String
  Unprocessed : Bool
deriving DecidableEq, Repr

/-- A Python dict used only through insertion and lookup: an association
list where insertion conses in front, so `dictGet` returns the most
recently written value for a key, as a dict does. -/
abbrev Dict (β : Type) := List (String × β)

/-- Dict lookup: the most recent binding of the key, `none` if absent. -/
def dictGet {β : Type} : Dict β → String → Option β
  | [], _ => none
  | (k, v) :: m, key => if k = key then some v else dictGet m key

/-! ## Paginated collection fetcher (lines 197-260)

The remote collection is the full ordered entity sequence; a query
`STARTPOSITION s MAXRESULTS 1000` returns the slice of up to 1000 items
starting at 1-based position `s`. The loop starts at position 1, appends
each page, advances the position by the page size, and stops on the first
page shorter than the page size. -/

/-- The fixed `max_results` page size of all three pagination loops. -/
def max_results : Nat := 1000

/-- One `while True` pagination loop, as a function of the start position. -/
def fetchFrom {α : Type} (items : List α) (start : Nat) : List α :=
  if ((items.drop (start - 1)).take max_results).length < max_results then
    (items.drop (start - 1)).take max_results
  else
    (items.drop (start - 1)).take max_results ++ fetchFrom items (start + max_results)
termination_by items.length + 1 - start
decreasing_by
  simp only [not_lt, List.length_take, List.length_drop, le_min_iff, max_results] at *
  omega

/-- A whole paginated fetch: the loop started at position 1. -/
def fetch_all {α : Type} (items : List α) : List α :=
  fetchFrom items 1

/-! ## Reference index builders (lines 186-245) -/

/-- The dict comprehension at lines 192-195: pm["Id"] maps to pm["Name"]. -/
def buildMethodIndex (pms : List PaymentMethod) : Dict String :=
  pms.foldl (fun m pm => (pm.Id, pm.Name) :: m) []

/-- The account loop body at lines 207-208:
accounts[Id] = account.get("Name", account.get("FullyQualifiedName", "")). -/
def buildAccountIndex (accs : List Account) : Dict String :=
  accs.foldl (fun m a => (a.Id, a.Name.getD (a.FullyQualifiedName.getD "")) :: m) []

/-- The deposit info recorded for every payment a deposit links:
`deposit.get("Id", "")` and `deposit.get("DocNumber", "")`. -/
def depositInfoOf (d : Deposit) : DepositInfo :=
  ⟨d.Id.getD "", d.DocNumber.getD ""⟩

/-- The innermost loop body at lines 233-241: a linked transaction of type
"Payment" with a non-empty TxnId maps that payment id to the deposit's
info. -/
def insertTxn (d : Deposit) (m : Dict DepositInfo) (t : LinkedTxn) : Dict DepositInfo :=
  if t.TxnType = some "Payment" then
    let payment_id := t.TxnId.getD ""
    if payment_id ≠ "" then (payment_id, depositInfoOf d) :: m else m
  else m

/-- The loop over one deposit line's linked transactions (lines 230-233). -/
def insertLine (d : Deposit) (m : Dict DepositInfo) (line : TxnLine) : Dict DepositInfo :=
  line.LinkedTxn.foldl (insertTxn d) m

/-- The deposit scan at lines 226-241, for one deposit. -/
def insertDeposit (m : Dict DepositInfo) (d : Deposit) : Dict DepositInfo :=
  d.Line.foldl (insertLine d) m

/-- The payment-id to deposit-info index, built across all fetched
deposits in order. -/
def buildDepositIndex (deps : List Deposit) : Dict DepositInfo :=
  deps.foldl insertDeposit []

/-! ## Date handling (lines 264-281)

`datetime.strptime(s, "%Y-%m-%d").date()` accepts exactly the strings
of shape Y-M-D where Y is exactly 4 digits, M and D are 1-2 digits, M is
a month 1-12, D is a day 1-31, the year is at least 1 and the day exists
in that month; anything else raises ValueError, which the code catches
and turns into "not recent". A parsed date is compared through its
rata-die day number, which is how `datetime.date` ordering and
`timedelta(days=30)` subtraction both act. -/

/-- Decimal value of a digit string. -/
def digitsToNat (cs : List Char) : Nat :=
  cs.foldl (fun n c => n * 10 + (c.toNat - 48)) 0

/-- Split a character list on the "-" separator, like Python str.split. -/
def splitDash : List Char → List (List Char)
  | [] => [[]]
  | c :: rest =>
    let r := splitDash rest
    if c = '-' then [] :: r
    else
      match r with
      | [] => [[c]]
      | g :: gs => (c :: g) :: gs

/-- Gregorian leap-year rule, as `datetime.date` validates days. -/
def isLeapYear (y : Nat) : Bool :=
  y % 4 == 0 && (y % 100 != 0 || y % 400 == 0)

/-- Length of a month in a given year. -/
def days_in_month (y m : Nat) : Nat :=
  if m = 2 then (if isLeapYear y then 29 else 28)
  else if m = 4 ∨ m = 6 ∨ m = 9 ∨ m = 11 then 30
  else 31

/-- The set of strings `strptime(s, "%Y-%m-%d")` followed by `.date()`
accepts, with the (year, month, day) it produces; `none` is ValueError. -/
def parse_date (s : String) : Option (Nat × Nat × Nat) :=
  match splitDash s.toList with
  | [ycs, mcs, dcs] =>
    if ycs.all Char.isDigit ∧ ycs.length = 4
        ∧ mcs.all Char.isDigit ∧ 1 ≤ mcs.length ∧ mcs.length ≤ 2
        ∧ dcs.all Char.isDigit ∧ 1 ≤ dcs.length ∧ dcs.length ≤ 2 then
      let y := digitsToNat ycs
      let m := digitsToNat mcs
      let d := digitsToNat dcs
      if 1 ≤ y ∧ 1 ≤ m ∧ m ≤ 12 ∧ 1 ≤ d ∧ d ≤ days_in_month y m then
        some (y, m, d)
      else none
    else none
  | _ => none

/-- Days of the year strictly before month `m`. -/
def daysBeforeMonth (y m : Nat) : Nat :=
  ((List.range (m - 1)).map (fun i => days_in_month y (i + 1))).sum

/-- Rata-die day number of a calendar date: 0001-01-01 is day 1. Date
comparison and whole-day `timedelta` arithmetic in Python agree with Nat
comparison and arithmetic on this number. -/
def toRataDie (y m d : Nat) : Nat :=
  365 * (y - 1) + (y - 1) / 4 - (y - 1) / 100 + (y - 1) / 400
    + daysBeforeMonth y m + d

/-- Line 265: `(datetime.now() - timedelta(days=30)).date()`, with `today`
the rata-die number of `datetime.now().date()`. -/
def one_month_ago (today : Nat) : Nat := today - 30

/-! ## Per-payment derived fields (lines 267-316) -/

/-- Line 269: `payment.get("ProcessPayment") != True`. -/
def is_unprocessed (p : Payment) : Bool :=
  !(pyEqTrue p.ProcessPayment)

/-- Lines 271-272: the resolved payment-method name,
`payment_methods.get(payment_method_id, "")` where the id is
`payment.get("PaymentMethodRef", {}).get("value")` (a dict lookup with a
`None` key finds nothing and yields the default). -/
def payment_method_name (payment_methods : Dict String) (p : Payment) : String :=
  match p.PaymentMethodRef with
  | some payment_method_id => (dictGet payment_methods payment_method_id).getD ""
  | none => ""

/-- Line 273: `payment_method in ["Credit Card", "ACH"]`. -/
def is_valid_method (payment_methods : Dict String) (p : Payment) : Bool :=
  payment_method_name payment_methods p == "Credit Card"
    || payment_method_name payment_methods p == "ACH"

/-- Lines 276-281: parse `payment.get("TxnDate", "")` and compare with the
date 30 days ago; any parse failure is caught and counts as not recent. -/
def is_recent (today : Nat) (p : Payment) : Bool :=
  match parse_date (p.TxnDate.getD "") with
  | some (y, m, d) => decide (one_month_ago today ≤ toRataDie y m d)
  | none => false

/-- Lines 296-309: scan the payment's lines in order; in each line take
the first linked transaction of type "Invoice" and read its TxnId
(default ""); stop at the first non-empty id, else keep scanning. -/
def get_invoice_number : List TxnLine → String
  | [] => ""
  | line :: rest =>
    match line.LinkedTxn.find? (fun t => t.TxnType == some "Invoice") with
    | some t => if t.TxnId.getD "" != "" then t.TxnId.getD "" else get_invoice_number rest
    | none => get_invoice_number rest

/-- Lines 290-334: the export record built for one retained payment. -/
def mkRecord (payment_methods accounts : Dict String)
    (payment_to_deposit : Dict DepositInfo) (p : Payment) : ExportRecord :=
  let customer_id := match p.CustomerRef with
    | some r => r.value.getD ""
    | none => ""
  let customer_name := match p.CustomerRef with
    | some r => r.name.getD ""
    | none => ""
  let deposit_account_id := p.DepositToAccountRef.getD ""
  let deposit_account_name := (dictGet accounts deposit_account_id).getD ""
  let deposit_info := dictGet payment_to_deposit p.Id
  { Payment_ID := p.Id
    Date := p.TxnDate.getD ""
    Total_Amount := p.TotalAmt
    QBO_Customer_ID := customer_id
    Customer_Name := customer_name
    Invoice_Number := get_invoice_number p.Line
    Payment_Method := payment_method_name payment_methods p
    Payment_Number := p.PaymentRefNum
    Memo := p.PrivateNote
    Deposit_Account_ID := deposit_account_id
    Deposit_Account_Name := deposit_account_name
    Has_Matching_Deposit := deposit_info.isSome
    Deposit_ID := (deposit_info.map DepositInfo.Deposit_ID).getD ""
    Deposit_Number := (deposit_info.map DepositInfo.Deposit_Number).getD ""
    Unprocessed := is_unprocessed p }

/-- The filter loop at lines 267-334: each payment is appended exactly
when all three predicates hold. -/
def processPayments (payment_methods accounts : Dict String)
    (payment_to_deposit : Dict DepositInfo) (today : Nat) :
    List Payment → List ExportRecord
  | [] => []
  | p :: rest =>
    if is_unprocessed p && is_valid_method payment_methods p && is_recent today p then
      mkRecord payment_methods accounts payment_to_deposit p ::
        processPayments payment_methods accounts payment_to_deposit today rest
    else
      processPayments payment_methods accounts payment_to_deposit today rest

/-- The whole of `get_qbo_credits` after the transport layer: the four
collections live on the remote side, the three big ones are fetched
through pagination (building an index page by page folds the same
function over the concatenation of the pages), the indices are built and
the payments are filtered and projected. -/
def get_qbo_credits (today : Nat) (paymentMethodsRemote : List PaymentMethod)
    (accountsRemote : List Account) (depositsRemote : List Deposit)
    (paymentsRemote : List Payment) : List ExportRecord :=
  let payment_methods := buildMethodIndex paymentMethodsRemote
  let accounts := buildAccountIndex (fetch_all accountsRemote)
  let payment_to_deposit := buildDepositIndex (fetch_all depositsRemote)
  let all_payments := fetch_all paymentsRemote
  processPayments payment_methods accounts payment_to_deposit today all_payments

/-! ## The __main__ tail (lines 392-413) -/

/-- The CSV header of line 401. -/
def fieldnames : List String :=
  ["Payment_ID", "Date", "Total_Amount", "QBO_Customer_ID", "Customer_Name",
   "Invoice_Number", "Payment_Method", "Payment_Number", "Memo",
   "Deposit_Account_ID", "Deposit_Account_Name", "Has_Matching_Deposit",
   "Deposit_ID", "Deposit_Number", "Unprocessed"]

/-- The externally visible actions of the `__main__` tail. -/
inductive Effect where
  | writeCsvFile (filename : String) (header : List String) (rows : List ExportRecord)
  | sendEmailWithCsv (filename : String) (recordCount : Nat)
  | printSummary (recordCount : Nat)
  | printNoRecords
deriving DecidableEq, Repr

/-- Whether an effect writes the CSV file. -/
def Effect.isCsvWrite : Effect → Bool
  | .writeCsvFile _ _ _ => true
  | _ => false

/-- Whether an effect sends the email. -/
def Effect.isEmailSend : Effect → Bool
  | .sendEmailWithCsv _ _ => true
  | _ => false

/-- Lines 399-413: `if credit_list:` writes the file, prints the summary
and sends the email; otherwise only the no-records message is printed. -/
def main_tail (credit_list : List ExportRecord) : List Effect :=
  if credit_list.isEmpty then
    [Effect.printNoRecords]
  else
    [Effect.writeCsvFile "unprocessed_payments.csv" fieldnames credit_list,
     Effect.printSummary credit_list.length,
     Effect.sendEmailWithCsv "unprocessed_payments.csv" credit_list.length]

/-! ## Shared lemmas -/

/-- A pagination loop started at a position at least 1 returns exactly the
remote items from that position on. -/
theorem fetchFrom_eq_drop {α : Type} (items : List α) :
    ∀ (n start : Nat), items.length + 1 - start ≤ n → 1 ≤ start →
      fetchFrom items start = items.drop (start - 1) := by
  intro n
  induction n with
  | zero =>
    intro start hn h1
    have hd : items.drop (start - 1) = [] := by
      apply List.drop_eq_nil_of_le
      omega
    rw [fetchFrom, hd]
    simp [max_results]
  | succ n ih =>
    intro start hn h1
    rw [fetchFrom]
    by_cases h : ((items.drop (start - 1)).take max_results).length < max_results
    · rw [if_pos h]
      apply List.take_of_length_le
      simp only [List.length_take, List.length_drop, max_results] at h ⊢
      omega
    · rw [if_neg h]
      have hge : max_results ≤ items.length - (start - 1) := by
        simp only [List.length_take, List.length_drop, not_lt, le_min_iff] at h
        exact h.2
      rw [ih (start + max_results) (by simp only [max_results] at hge ⊢; omega) (by omega)]
      have h2 : start + max_results - 1 = (start - 1) + max_results := by omega
      rw [h2, ← List.drop_drop, List.take_append_drop]

/-- The paginated fetcher is the identity on the remote collection. -/
theorem fetch_all_id {α : Type} (items : List α) : fetch_all items = items := by
  unfold fetch_all
  rw [fetchFrom_eq_drop items (items.length + 1) 1 (by omega) (by omega)]
  simp

/-- The filter loop keeps exactly the payments passing the three-predicate
conjunction, projected in order. -/
theorem processPayments_eq (pm acc : Dict String) (dep : Dict DepositInfo)
    (today : Nat) (ps : List Payment) :
    processPayments pm acc dep today ps =
      (ps.filter
        (fun p => is_unprocessed p && is_valid_method pm p && is_recent today p)).map
        (mkRecord pm acc dep) := by
  induction ps with
  | nil => rfl
  | cons p rest ih =>
    cases h : (is_unprocessed p && is_valid_method pm p && is_recent today p) with
    | true => simp [processPayments, h, List.filter_cons, ih]
    | false => simp [processPayments, h, List.filter_cons, ih]

/-! ## C1 and C5 -/

/-- C1: a payment is retained in the output of get_qbo_credits iff
isUnprocessed, isValidMethod and isRecent all hold (isValidMethod being an
exact match of the resolved method name against "Credit Card" or "ACH"),
and the retained payments appear in fetch order: the output is exactly the
in-order filter of the fetched payment sequence, projected to export
records. -/
theorem C1_retention_conjunction_and_order (today : Nat)
    (pmsR : List PaymentMethod) (accsR : List Account) (depsR : List Deposit)
    (paysR : List Payment) :
    get_qbo_credits today pmsR accsR depsR paysR =
      (paysR.filter (fun p => is_unprocessed p
          && is_valid_method (buildMethodIndex pmsR) p && is_recent today p)).map
        (mkRecord (buildMethodIndex pmsR) (buildAccountIndex accsR)
          (buildDepositIndex depsR)) := by
  simp only [get_qbo_credits, fetch_all_id]
  exact processPayments_eq _ _ _ today paysR

/-- C5: the paginated fetcher (start position 1, fixed page size 1000,
stopping exactly on the first page shorter than the page size) terminates
and returns the whole remote collection: exactly N items, in order. -/
theorem C5_pagination_returns_all {α : Type} (items : List α) :
    fetch_all items = items ∧ (fetch_all items).length = items.length := by
  refine ⟨fetch_all_id items, ?_⟩
  rw [fetch_all_id]

/-! ## C2: the recency check -/

/-- C2: isRecent holds iff the TxnDate string parses as a calendar date on
or after today minus 30 days; a date exactly 30 days old is recent, one 31
days old is not, and a missing or unparsable date is never recent (the
check is a total function: the ValueError of a failed parse is caught). -/
theorem C2_recency_check (today : Nat) (p : Payment) :
    (is_recent today p = true ↔
        ∃ y m d, parse_date (p.TxnDate.getD "") = some (y, m, d)
          ∧ one_month_ago today ≤ toRataDie y m d)
    ∧ (∀ y m d, parse_date (p.TxnDate.getD "") = some (y, m, d) →
        toRataDie y m d + 30 = today → is_recent today p = true)
    ∧ (∀ y m d, parse_date (p.TxnDate.getD "") = some (y, m, d) →
        toRataDie y m d + 31 = today → is_recent today p = false)
    ∧ (p.TxnDate = none → is_recent today p = false)
    ∧ (parse_date (p.TxnDate.getD "") = none → is_recent today p = false) := by
  have hrec : ∀ (y m d : Nat), parse_date (p.TxnDate.getD "") = some (y, m, d) →
      is_recent today p = decide (one_month_ago today ≤ toRataDie y m d) := by
    intro y m d hp
    unfold is_recent
    rw [hp]
  have hnone : parse_date (p.TxnDate.getD "") = none → is_recent today p = false := by
    intro hp
    unfold is_recent
    rw [hp]
  refine ⟨⟨?_, ?_⟩, ?_, ?_, ?_, hnone⟩
  · intro h
    cases hp : parse_date (p.TxnDate.getD "") with
    | none => rw [hnone hp] at h; exact absurd h (by simp)
    | some t =>
      obtain ⟨y, m, d⟩ := t
      refine ⟨y, m, d, rfl, ?_⟩
      rw [hrec y m d hp] at h
      exact of_decide_eq_true h
  · rintro ⟨y, m, d, hp, hle⟩
    rw [hrec y m d hp]
    exact decide_eq_true hle
  · intro y m d hp h30
    rw [hrec y m d hp]
    apply decide_eq_true
    unfold one_month_ago
    omega
  · intro y m d hp h31
    rw [hrec y m d hp]
    apply decide_eq_false
    unfold one_month_ago
    omega
  · intro hd
    apply hnone
    rw [hd]
    decide

/-! ## C7: the unprocessed flag -/

/-- Concrete payment whose ProcessPayment key holds the JSON number 1. -/
def c7_payment : Payment :=
  { Id := "P1", TxnDate := none, TotalAmt := 0, CustomerRef := none,
    PaymentMethodRef := none, DepositToAccountRef := none,
    ProcessPayment := some (PVal.num 1), PaymentRefNum := none,
    PrivateNote := none, Line := [] }

/-- C7 as stated is false: the number 1 is a non-boolean value, yet
Python's `payment.get("ProcessPayment") != True` is False for it
(`1 == True` in Python), so the payment counts as processed, not
unprocessed. -/
theorem C7_counterexample :
    is_unprocessed c7_payment = false
    ∧ c7_payment.ProcessPayment = some (PVal.num 1)
    ∧ PVal.num 1 ≠ PVal.bool true ∧ PVal.num 1 ≠ PVal.bool false := by
  refine ⟨rfl, rfl, by decide, by decide⟩

/-- C7 amended: isUnprocessed is true iff the ProcessPayment value is not
Python-equal to True; an absent key, boolean false, null, any string, and
any number other than 1 count as unprocessed, while boolean true and the
number 1 count as processed. -/
theorem C7_unprocessed_flag (p : Payment) :
    (is_unprocessed p = true ↔
        ¬(p.ProcessPayment = some (PVal.bool true) ∨ p.ProcessPayment = some (PVal.num 1)))
    ∧ (p.ProcessPayment = none → is_unprocessed p = true)
    ∧ (p.ProcessPayment = some (PVal.bool false) → is_unprocessed p = true)
    ∧ (p.ProcessPayment = some PVal.null → is_unprocessed p = true)
    ∧ (∀ s, p.ProcessPayment = some (PVal.str s) → is_unprocessed p = true)
    ∧ (∀ n, n ≠ 1 → p.ProcessPayment = some (PVal.num n) → is_unprocessed p = true) := by
  have key : ∀ v : Option PVal,
      pyEqTrue v = true ↔ (v = some (PVal.bool true) ∨ v = some (PVal.num 1)) := by
    intro v
    match v with
    | none => simp [pyEqTrue]
    | some (PVal.bool b) => cases b <;> simp [pyEqTrue]
    | some (PVal.num n) => simp [pyEqTrue]
    | some (PVal.str s) => simp [pyEqTrue]
    | some PVal.null => simp [pyEqTrue]
  have hneg : ∀ v : Option PVal,
      (!pyEqTrue v) = true ↔ ¬(v = some (PVal.bool true) ∨ v = some (PVal.num 1)) := by
    intro v
    rw [Bool.not_eq_true', ← Bool.not_eq_true, key]
  refine ⟨hneg p.ProcessPayment, ?_, ?_, ?_, ?_, ?_⟩
  · intro h
    rw [show is_unprocessed p = !pyEqTrue p.ProcessPayment from rfl, hneg, h]
    simp
  · intro h
    rw [show is_unprocessed p = !pyEqTrue p.ProcessPayment from rfl, hneg, h]
    simp
  · intro h
    rw [show is_unprocessed p = !pyEqTrue p.ProcessPayment from rfl, hneg, h]
    simp
  · intro s h
    rw [show is_unprocessed p = !pyEqTrue p.ProcessPayment from rfl, hneg, h]
    simp
  · intro n hn h
    rw [show is_unprocessed p = !pyEqTrue p.ProcessPayment from rfl, hneg, h]
    simp [hn]

/-! ## C3: invoice-number extraction -/

/-- The claim's reading of the extraction: the TxnId (missing read as "")
of the first Invoice-type linked transaction of the flattened in-order
scan of all the payment's lines, "" when there is none. -/
def claimedFirstInvoiceId (lines : List TxnLine) : String :=
  ((((lines.map (fun line => line.LinkedTxn)).flatten).find?
      (fun t => t.TxnType == some "Invoice")).map
    (fun t => t.TxnId.getD "")).getD ""

/-- What the code computes: scanning lines in order, each line contributes
the TxnId (default "") of its first Invoice-type linked transaction, and
the result is the first non-empty contribution, else "". -/
def specInvoiceAmended (lines : List TxnLine) : String :=
  (((lines.filterMap (fun line =>
      (line.LinkedTxn.find? (fun t => t.TxnType == some "Invoice")).map
        (fun t => t.TxnId.getD ""))).find? (fun s => s != "")).getD "")

/-- The extraction loop computes exactly `specInvoiceAmended`. -/
theorem get_invoice_number_eq_spec (lines : List TxnLine) :
    get_invoice_number lines = specInvoiceAmended lines := by
  induction lines with
  | nil => rfl
  | cons line rest ih =>
    unfold get_invoice_number specInvoiceAmended
    cases hf : line.LinkedTxn.find? (fun t => t.TxnType == some "Invoice") with
    | none =>
      simp only [List.filterMap_cons, hf]
      exact ih
    | some t =>
      simp only [List.filterMap_cons, hf, Option.map_some']
      cases hid : (t.TxnId.getD "" != "") with
      | true =>
        simp [List.find?_cons, hid]
      | false =>
        simp only [List.find?_cons, hid, Bool.false_eq_true, if_false]
        exact ih

/-- C3 amended: the Invoice_Number of a payment's export record is the
first non-empty TxnId obtained by scanning the lines in order and taking,
within each line, only the first Invoice-type linked transaction (its
TxnId, "" when missing); it is "" when no line yields a non-empty id. -/
theorem C3_invoice_number_amended (pm acc : Dict String) (dep : Dict DepositInfo)
    (p : Payment) :
    (mkRecord pm acc dep p).Invoice_Number = specInvoiceAmended p.Line := by
  show get_invoice_number p.Line = specInvoiceAmended p.Line
  exact get_invoice_number_eq_spec p.Line

/-- A retained payment whose first line carries an Invoice link with a
missing TxnId and whose second line carries an Invoice link with TxnId
"42". -/
def c3_payment : Payment :=
  { Id := "P1", TxnDate := some "2025-10-01", TotalAmt := 100,
    CustomerRef := none, PaymentMethodRef := some "1",
    DepositToAccountRef := none, ProcessPayment := none,
    PaymentRefNum := none, PrivateNote := none,
    Line := [⟨[⟨some "Invoice", none⟩]⟩, ⟨[⟨some "Invoice", some "42"⟩]⟩] }

/-- The reference date for the concrete runs: 2025-10-12 as a rata-die
number. -/
def today0 : Nat := toRataDie 2025 10 12

/-- C3 as stated is false: for this retained payment the first
Invoice-type linked transaction of the in-order scan has no TxnId, so the
claim demands Invoice_Number = "", but the code skips the empty id and
emits "42" from a later line. -/
theorem C3_counterexample :
    (get_qbo_credits today0 [⟨"1", "ACH"⟩] [] [] [c3_payment]).map
        (fun r => r.Invoice_Number) = ["42"]
    ∧ claimedFirstInvoiceId c3_payment.Line = ""
    ∧ ("42" : String) ≠ "" := by
  refine ⟨?_, by decide, by decide⟩
  simp only [get_qbo_credits, fetch_all_id]
  decide

/-! ## C4: the deposit index -/

/-- Whether a deposit carries a Payment-type linked transaction whose
TxnId reads back as the given payment id. -/
def references_payment (d : Deposit) (pid : String) : Bool :=
  d.Line.any (fun line => line.LinkedTxn.any
    (fun t => t.TxnType == some "Payment" && t.TxnId.getD "" == pid))

theorem dictGet_insertTxn (d : Deposit) (pid : String) (hpid : pid ≠ "")
    (m : Dict DepositInfo) (t : LinkedTxn) :
    dictGet (insertTxn d m t) pid =
      if t.TxnType == some "Payment" && t.TxnId.getD "" == pid
      then some (depositInfoOf d) else dictGet m pid := by
  unfold insertTxn
  by_cases h1 : t.TxnType = some "Payment"
  · by_cases h3 : t.TxnId.getD "" = pid
    · have h2 : t.TxnId.getD "" ≠ "" := by rw [h3]; exact hpid
      simp [h1, h2, h3, dictGet, hpid]
    · by_cases h2 : t.TxnId.getD "" = ""
      · simp [h1, h2, h3, Ne.symm hpid]
      · simp [h1, h2, h3, dictGet]
  · simp [h1]

theorem dictGet_foldl_insertTxn (d : Deposit) (pid : String) (hpid : pid ≠ "")
    (txns : List LinkedTxn) :
    ∀ (m : Dict DepositInfo),
      dictGet (txns.foldl (insertTxn d) m) pid =
        if txns.any (fun t => t.TxnType == some "Payment" && t.TxnId.getD "" == pid)
        then some (depositInfoOf d) else dictGet m pid := by
  induction txns with
  | nil => intro m; simp
  | cons t tl ih =>
    intro m
    rw [List.foldl_cons, ih (insertTxn d m t), dictGet_insertTxn d pid hpid m t]
    cases hany : tl.any (fun t => t.TxnType == some "Payment" && t.TxnId.getD "" == pid)
      <;> cases hc : (t.TxnType == some "Payment" && t.TxnId.getD "" == pid)
      <;> simp [List.any_cons, hany, hc]

theorem dictGet_insertLine (d : Deposit) (pid : String) (hpid : pid ≠ "")
    (m : Dict DepositInfo) (line : TxnLine) :
    dictGet (insertLine d m line) pid =
      if line.LinkedTxn.any (fun t => t.TxnType == some "Payment" && t.TxnId.getD "" == pid)
      then some (depositInfoOf d) else dictGet m pid :=
  dictGet_foldl_insertTxn d pid hpid line.LinkedTxn m

theorem dictGet_insertDeposit (d : Deposit) (pid : String) (hpid : pid ≠ "")
    (m : Dict DepositInfo) :
    dictGet (insertDeposit m d) pid =
      if references_payment d pid then some (depositInfoOf d) else dictGet m pid := by
  unfold insertDeposit references_payment
  generalize d.Line = lines
  induction lines generalizing m with
  | nil => simp
  | cons l tl ih =>
    rw [List.foldl_cons, ih (insertLine d m l), dictGet_insertLine d pid hpid m l]
    cases hany : tl.any (fun line => line.LinkedTxn.any
        (fun t => t.TxnType == some "Payment" && t.TxnId.getD "" == pid))
      <;> cases hc : l.LinkedTxn.any
        (fun t => t.TxnType == some "Payment" && t.TxnId.getD "" == pid)
      <;> simp [List.any_cons, hany, hc]

theorem dictGet_buildDepositIndex (deps : List Deposit) (pid : String) (hpid : pid ≠ "") :
    dictGet (buildDepositIndex deps) pid =
      (deps.reverse.find? (fun d => references_payment d pid)).map depositInfoOf := by
  induction deps using List.reverseRecOn with
  | nil => rfl
  | append_singleton ds d ih =>
    unfold buildDepositIndex at ih ⊢
    rw [List.foldl_append, List.foldl_cons, List.foldl_nil,
      dictGet_insertDeposit d pid hpid, List.reverse_append]
    simp only [List.reverse_cons, List.reverse_nil, List.nil_append, List.singleton_append]
    cases href : references_payment d pid
    · have hfind : List.find? (fun d => references_payment d pid) (d :: ds.reverse)
          = List.find? (fun d => references_payment d pid) ds.reverse :=
        List.find?_cons_of_neg _ (by simp [href])
      rw [hfind]
      simpa using ih
    · have hfind : List.find? (fun d => references_payment d pid) (d :: ds.reverse)
          = some d :=
        List.find?_cons_of_pos _ (by exact href)
      rw [hfind]
      simp

/-- C4: the deposit index maps a (non-empty) payment id to the Id and
DocNumber of the last deposit in fetch order that links it through a
Payment-type linked transaction ("later wins"); ids referenced by no
deposit are absent; and a record's Has_Matching_Deposit is exactly
"the payment's Id is a key of the index". -/
theorem C4_deposit_index_last_wins (deps : List Deposit) (pid : String)
    (pm acc : Dict String) (p : Payment) (hpid : pid ≠ "") :
    dictGet (buildDepositIndex deps) pid =
        (deps.reverse.find? (fun d => references_payment d pid)).map depositInfoOf
    ∧ ((∀ d ∈ deps, references_payment d pid = false) →
        dictGet (buildDepositIndex deps) pid = none)
    ∧ (mkRecord pm acc (buildDepositIndex deps) p).Has_Matching_Deposit
        = (dictGet (buildDepositIndex deps) p.Id).isSome := by
  refine ⟨dictGet_buildDepositIndex deps pid hpid, ?_, rfl⟩
  intro hall
  rw [dictGet_buildDepositIndex deps pid hpid]
  have hfind : deps.reverse.find? (fun d => references_payment d pid) = none := by
    rw [List.find?_eq_none]
    intro d hd
    simp [hall d (List.mem_reverse.mp hd)]
  rw [hfind]
  rfl

/-- Deposits for the C4 witness: two deposits both linking payment "P1";
the later one must win. -/
def c4_dep1 : Deposit := ⟨some "D1", some "1001", [⟨[⟨some "Payment", some "P1"⟩]⟩]⟩

def c4_dep2 : Deposit := ⟨some "D2", some "1002", [⟨[⟨some "Payment", some "P1"⟩]⟩]⟩

def c4_deps : List Deposit := [c4_dep1, c4_dep2]

def c4_payment : Payment :=
  { Id := "P1", TxnDate := none, TotalAmt := 0, CustomerRef := none,
    PaymentMethodRef := none, DepositToAccountRef := none, ProcessPayment := none,
    PaymentRefNum := none, PrivateNote := none, Line := [] }

theorem C4_witness :
    dictGet (buildDepositIndex c4_deps) "P1"
        = (c4_deps.reverse.find? (fun d => references_payment d "P1")).map depositInfoOf
    ∧ ((∀ d ∈ c4_deps, references_payment d "P1" = false) →
        dictGet (buildDepositIndex c4_deps) "P1" = none)
    ∧ (mkRecord [] [] (buildDepositIndex c4_deps) c4_payment).Has_Matching_Deposit
        = (dictGet (buildDepositIndex c4_deps) c4_payment.Id).isSome :=
  C4_deposit_index_last_wins c4_deps "P1" [] [] c4_payment (by decide)

/-! ## C8: missing-reference defaults -/

/-- C8: a payment whose payment-method id has no entry in the method
index, or is absent, yields Payment_Method = ""; a deposit-account id
with no entry in the account index yields Deposit_Account_Name = "". The
lookups are total functions, so no error can be raised. -/
theorem C8_missing_reference_defaults (pm acc : Dict String)
    (dep : Dict DepositInfo) (p : Payment) :
    (∀ mid, p.PaymentMethodRef = some mid → dictGet pm mid = none →
        (mkRecord pm acc dep p).Payment_Method = "")
    ∧ (p.PaymentMethodRef = none → (mkRecord pm acc dep p).Payment_Method = "")
    ∧ (dictGet acc (p.DepositToAccountRef.getD "") = none →
        (mkRecord pm acc dep p).Deposit_Account_Name = "") := by
  refine ⟨?_, ?_, ?_⟩
  · intro mid hmid hnone
    show payment_method_name pm p = ""
    simp [payment_method_name, hmid, hnone]
  · intro hmid
    show payment_method_name pm p = ""
    unfold payment_method_name
    rw [hmid]
  · intro hnone
    show (dictGet acc (p.DepositToAccountRef.getD "")).getD "" = ""
    rw [hnone]
    rfl

/-! ## C9: invariants of every output row -/

theorem mem_processPayments (pm acc : Dict String) (dep : Dict DepositInfo)
    (today : Nat) (ps : List Payment) (r : ExportRecord)
    (hr : r ∈ processPayments pm acc dep today ps) :
    ∃ p, p ∈ ps
      ∧ (is_unprocessed p && is_valid_method pm p && is_recent today p) = true
      ∧ r = mkRecord pm acc dep p := by
  rw [processPayments_eq] at hr
  obtain ⟨p, hp, rfl⟩ := List.mem_map.mp hr
  obtain ⟨hmem, hpred⟩ := List.mem_filter.mp hp
  exact ⟨p, hmem, hpred, rfl⟩

/-- C9: every export record emitted by get_qbo_credits carries
Unprocessed = true and a Payment_Method that is exactly "Credit Card" or
exactly "ACH": both are preconditions of retention, so the Unprocessed
column is constant over the output. -/
theorem C9_output_invariant (today : Nat) (pmsR : List PaymentMethod)
    (accsR : List Account) (depsR : List Deposit) (paysR : List Payment)
    (r : ExportRecord)
    (hr : r ∈ get_qbo_credits today pmsR accsR depsR paysR) :
    r.Unprocessed = true
    ∧ (r.Payment_Method = "Credit Card" ∨ r.Payment_Method = "ACH") := by
  simp only [get_qbo_credits, fetch_all_id] at hr
  obtain ⟨p, hmem, hpred, rfl⟩ := mem_processPayments _ _ _ _ _ _ hr
  simp only [Bool.and_eq_true] at hpred
  obtain ⟨⟨hunp, hval⟩, hrec⟩ := hpred
  constructor
  · exact hunp
  · show payment_method_name (buildMethodIndex pmsR) p = "Credit Card"
      ∨ payment_method_name (buildMethodIndex pmsR) p = "ACH"
    unfold is_valid_method at hval
    simpa only [Bool.or_eq_true, beq_iff_eq] using hval

def c9_payment : Payment :=
  { Id := "P9", TxnDate := some "2025-10-01", TotalAmt := 100, CustomerRef := none,
    PaymentMethodRef := some "1", DepositToAccountRef := none, ProcessPayment := none,
    PaymentRefNum := none, PrivateNote := none, Line := [] }

def c9_record : ExportRecord :=
  mkRecord (buildMethodIndex [⟨"1", "ACH"⟩]) (buildAccountIndex [])
    (buildDepositIndex []) c9_payment

theorem C9_witness :
    c9_record.Unprocessed = true
    ∧ (c9_record.Payment_Method = "Credit Card" ∨ c9_record.Payment_Method = "ACH") :=
  C9_output_invariant today0 [⟨"1", "ACH"⟩] [] [] [c9_payment] c9_record
    (by simp only [get_qbo_credits, fetch_all_id]; decide)

/-! ## C6: data-shape anomalies -/

/-- C6 amended: every data-shape anomaly resolves to a non-fatal default
and the payment is still processed and emitted — "" for a missing
customer reference, invoice link, deposit-account reference or deposit
match, false for Has_Matching_Deposit — but a missing PaymentRefNum or
PrivateNote appears in the record as Python None (here `none`), not as
the empty string. -/
theorem C6_anomaly_defaults (pm acc : Dict String) (dep : Dict DepositInfo)
    (today : Nat) (p : Payment) (rest : List Payment)
    (hkeep : (is_unprocessed p && is_valid_method pm p && is_recent today p) = true)
    (hcust : p.CustomerRef = none) (hlines : p.Line = [])
    (hrefnum : p.PaymentRefNum = none) (hmemo : p.PrivateNote = none)
    (hdepacct : p.DepositToAccountRef = none) (hdep : dictGet dep p.Id = none)
    (hacc : dictGet acc "" = none) :
    processPayments pm acc dep today (p :: rest)
        = mkRecord pm acc dep p :: processPayments pm acc dep today rest
    ∧ (mkRecord pm acc dep p).QBO_Customer_ID = ""
    ∧ (mkRecord pm acc dep p).Customer_Name = ""
    ∧ (mkRecord pm acc dep p).Invoice_Number = ""
    ∧ (mkRecord pm acc dep p).Payment_Number = none
    ∧ (mkRecord pm acc dep p).Memo = none
    ∧ (mkRecord pm acc dep p).Deposit_Account_ID = ""
    ∧ (mkRecord pm acc dep p).Deposit_Account_Name = ""
    ∧ (mkRecord pm acc dep p).Has_Matching_Deposit = false
    ∧ (mkRecord pm acc dep p).Deposit_ID = ""
    ∧ (mkRecord pm acc dep p).Deposit_Number = "" := by
  refine ⟨by simp [processPayments, hkeep], ?_, ?_, ?_, ?_, ?_, ?_, ?_, ?_, ?_, ?_⟩ <;>
    simp [mkRecord, hcust, hlines, hrefnum, hmemo, hdepacct, hdep, hacc,
      get_invoice_number]

def c6_payment : Payment :=
  { Id := "P6", TxnDate := some "2025-10-01", TotalAmt := 5, CustomerRef := none,
    PaymentMethodRef := some "1", DepositToAccountRef := none, ProcessPayment := none,
    PaymentRefNum := none, PrivateNote := none, Line := [] }

def c6_pm : Dict String := buildMethodIndex [⟨"1", "ACH"⟩]

theorem C6_witness :
    processPayments c6_pm [] [] today0 [c6_payment]
        = mkRecord c6_pm [] [] c6_payment :: processPayments c6_pm [] [] today0 []
    ∧ (mkRecord c6_pm [] [] c6_payment).QBO_Customer_ID = ""
    ∧ (mkRecord c6_pm [] [] c6_payment).Customer_Name = ""
    ∧ (mkRecord c6_pm [] [] c6_payment).Invoice_Number = ""
    ∧ (mkRecord c6_pm [] [] c6_payment).Payment_Number = none
    ∧ (mkRecord c6_pm [] [] c6_payment).Memo = none
    ∧ (mkRecord c6_pm [] [] c6_payment).Deposit_Account_ID = ""
    ∧ (mkRecord c6_pm [] [] c6_payment).Deposit_Account_Name = ""
    ∧ (mkRecord c6_pm [] [] c6_payment).Has_Matching_Deposit = false
    ∧ (mkRecord c6_pm [] [] c6_payment).Deposit_ID = ""
    ∧ (mkRecord c6_pm [] [] c6_payment).Deposit_Number = "" :=
  C6_anomaly_defaults c6_pm [] [] today0 c6_payment [] (by decide)
    rfl rfl rfl rfl rfl rfl rfl

/-- C6 as stated is false: a retained payment with no PaymentRefNum key
yields an export record whose Payment_Number is Python None (`none`),
not the empty string. -/
theorem C6_counterexample :
    (get_qbo_credits today0 [⟨"1", "ACH"⟩] [] [] [c6_payment]).map
        (fun r => r.Payment_Number) = [none]
    ∧ (none : Option String) ≠ some "" := by
  refine ⟨?_, by decide⟩
  simp only [get_qbo_credits, fetch_all_id]
  decide

/-! ## C10: the __main__ tail -/

/-- C10: the CSV file is written and the email sent exactly when at least
one payment was retained; an empty credit list produces only the
no-records message — no file at all and no email. -/
theorem C10_csv_and_email_iff_nonempty (credit_list : List ExportRecord) :
    ((main_tail credit_list).any Effect.isCsvWrite = true ↔ credit_list ≠ [])
    ∧ ((main_tail credit_list).any Effect.isEmailSend = true ↔ credit_list ≠ [])
    ∧ (credit_list = [] → main_tail credit_list = [Effect.printNoRecords]) := by
  cases credit_list with
  | nil => simp [main_tail, Effect.isCsvWrite, Effect.isEmailSend]
  | cons r rest => simp [main_tail, Effect.isCsvWrite, Effect.isEmailSend]

end UP
